import Mathlib

/-!
Verification of the Strategy/Risk/Ledger cycle engine of the Kalshi
paper-trading dashboard (`src/src/Dashboard.jsx`).

The engine is embedded shallowly: JavaScript numbers holding integer cents
become `Int`, the floating-point fair-value draw and confidence values become
`Rat`, the `positions` object keyed by `"<ticker>-<side>"` becomes an
association list, and the stochastic fair-value oracle becomes an explicit
argument (`fair : Rat`, or `fairOf : Market → Rat` per market).  The fee
computation, whose IEEE-double rounding is observable in the result (its
`Math.ceil` can pick up float noise, e.g. `0.07*4*0.5*0.5*100` evaluates to
7.000000000000001), is embedded with an exact model of binary64 arithmetic
(`F64`: dyadic values rounded to 53 significant bits, round-to-nearest,
ties-to-even).  Wall-clock
timestamp strings (`entryTime` on positions, `time` on closed trades) are
presentation-only — the engine never reads them — and are omitted, as are the
`Market` fields (`noBid`, `noAsk`, `spread`, `volume`, `status`,
`openInterest`, `expirationTime`) that the strategy/risk/ledger core never
reads.  The numeric interpolation inside human-readable `reason` log strings
is elided; the strings are otherwise kept.
-/

namespace KalshiDashboard

/-- Contract side of a signal or position. -/
inductive Side
  | YES
  | NO
deriving DecidableEq

/-- The string the source uses for a side when building position keys. -/
def sideStr : Side → String
  | Side.YES => "YES"
  | Side.NO => "NO"

/-- Market quote fields read by the engine (`parseMarkets` produces more
fields, but the strategy/risk/ledger core reads only these). -/
structure Market where
  ticker : String
  title : String
  yesBid : Int
  yesAsk : Int
  mid : Int
deriving DecidableEq

/-- `valueParams` state: `{ threshold, maxContracts, minConfidence }`. -/
structure ValueParams where
  threshold : Rat
  maxContracts : Int
  minConfidence : Rat
deriving DecidableEq

/-- `mmParams` state: `{ spread, size }`. -/
structure MMParams where
  spread : Int
  size : Int
deriving DecidableEq

/-- `riskParams` state: `{ maxPositionPerMarket, maxExposure, maxDailyLoss }`. -/
structure RiskParams where
  maxPositionPerMarket : Int
  maxExposure : Int
  maxDailyLoss : Int
deriving DecidableEq

/-- A raw strategy signal as pushed by the evaluators (no verdict yet). -/
structure Signal where
  ticker : String
  title : String
  side : Side
  action : String
  price : Int
  count : Int
  reason : String
  confidence : Rat
  edge : Rat
deriving DecidableEq

/-- Verdict assigned by the risk filter. -/
inductive Status
  | PENDING
  | APPROVED
  | REJECTED
deriving DecidableEq

/-- A signal after the risk filter: the original fields plus
`status`/`rejectReason` (the source spreads `...sig` into a new object). -/
structure CheckedSignal where
  sig : Signal
  status : Status
  rejectReason : Option String
deriving DecidableEq

/-- The `action` string of every emitted signal. -/
def buyAction : String := "BUY"

/-- Log-string prefix for a value-strategy YES signal. -/
def yesUndervaluedMsg : String := "YES undervalued"

/-- Log-string prefix for a value-strategy NO signal. -/
def noUndervaluedMsg : String := "NO undervalued"

/-- Log-string prefix for the market-maker YES bid. -/
def mmYesBidMsg : String := "MM yes bid"

/-- Log-string prefix for the market-maker NO bid. -/
def mmNoBidMsg : String := "MM no bid"

/-- `evaluateValueStrategy(market, params)`: the stochastic draw
`fair = market.mid + (Math.random() - 0.5) * 15` is passed in as the
argument `fair`; everything after the draw is embedded verbatim. -/
def evaluateValueStrategy (market : Market) (params : ValueParams)
    (fair : Rat) : List Signal :=
  let yesSignals :=
    if params.threshold ≤ fair - (market.yesAsk : Rat) then
      let conf := min ((fair - (market.yesAsk : Rat)) / 100) 1
      if params.minConfidence ≤ conf then
        [{ ticker := market.ticker, title := market.title, side := Side.YES,
           action := buyAction, price := market.yesAsk + 1,
           count := min params.maxContracts 3, reason := yesUndervaluedMsg,
           confidence := conf, edge := fair - (market.yesAsk : Rat) }]
      else []
    else []
  let noFair := 100 - fair
  let noAsk : Int := 100 - market.yesBid
  let noSignals :=
    if params.threshold ≤ noFair - (noAsk : Rat) then
      let conf := min ((noFair - (noAsk : Rat)) / 100) 1
      if params.minConfidence ≤ conf then
        [{ ticker := market.ticker, title := market.title, side := Side.NO,
           action := buyAction, price := noAsk + 1,
           count := min params.maxContracts 3, reason := noUndervaluedMsg,
           confidence := conf, edge := noFair - (noAsk : Rat) }]
      else []
    else []
  yesSignals ++ noSignals

/-- `evaluateMMStrategy(market, params)`: always two signals, a YES bid and a
NO bid around the mid; `half = Math.floor(params.spread / 2)`. -/
def evaluateMMStrategy (market : Market) (params : MMParams) : List Signal :=
  let half := Int.fdiv params.spread 2
  [{ ticker := market.ticker, title := market.title, side := Side.YES,
     action := buyAction, price := max 1 (market.mid - half),
     count := params.size, reason := mmYesBidMsg,
     confidence := 1 / 2, edge := (half : Rat) },
   { ticker := market.ticker, title := market.title, side := Side.NO,
     action := buyAction, price := max 1 (100 - market.mid - half),
     count := params.size, reason := mmNoBidMsg,
     confidence := 1 / 2, edge := (half : Rat) }]

/-- The three strategy-mode strings of `activeStrategy`. -/
def strValue : String := "value"

/-- Strategy mode: market-maker only. -/
def strMm : String := "mm"

/-- Strategy mode: both strategies active. -/
def strBoth : String := "both"

/-- The per-market signal generation of the main loop: value-strategy signals
when `activeStrategy` is `"value"` or `"both"`, then market-maker signals when
it is `"mm"` or `"both"`. -/
def strategySignalsFor (mode : String) (vp : ValueParams) (mm : MMParams)
    (fairOf : Market → Rat) (m : Market) : List Signal :=
  (if mode = strValue ∨ mode = strBoth
    then evaluateValueStrategy m vp (fairOf m) else []) ++
  (if mode = strMm ∨ mode = strBoth then evaluateMMStrategy m mm else [])

/-- `newSignals`: the concatenation of the active strategies' signals over
every market of the current snapshot, in market order. -/
def generateSignals (mode : String) (markets : List Market) (vp : ValueParams)
    (mm : MMParams) (fairOf : Market → Rat) : List Signal :=
  markets.flatMap (strategySignalsFor mode vp mm fairOf)

/-- An open position (the presentation-only `entryTime` string is omitted). -/
structure Position where
  side : Side
  count : Int
  avgPrice : Int
  ticker : String
deriving DecidableEq

/-- A closed-trade record (the presentation-only `time` string is omitted). -/
structure ClosedTrade where
  ticker : String
  side : Side
  entryPrice : Int
  exitPrice : Int
  count : Int
  pnl : Int
deriving DecidableEq

/-- The portfolio state; `positions` is the object keyed by
`"<ticker>-<side>"`, embedded as an association list. -/
structure Portfolio where
  balance : Int
  totalPnl : Int
  positions : List (String × Position)
  closedTrades : List ClosedTrade
  equityCurve : List Int
  totalFees : Int
deriving DecidableEq

/-- The initial portfolio state of `useState` at engine construction. -/
def initialPortfolio : Portfolio :=
  { balance := 10000, totalPnl := 0, positions := [], closedTrades := [],
    equityCurve := [0], totalFees := 0 }

/-- The portfolio state that `resetStats` installs. -/
def resetPortfolio : Portfolio :=
  { balance := 10000, totalPnl := 0, positions := [], closedTrades := [],
    equityCurve := [0], totalFees := 0 }

/-- The position key `` `${sig.ticker}-${sig.side}` ``. -/
def posKey (ticker : String) (side : Side) : String :=
  ticker ++ "-" ++ sideStr side

/-- `dailyLoss = currentPortfolio.totalPnl < 0 ? Math.abs(totalPnl) : 0`. -/
def dailyLossOf (totalPnl : Int) : Int :=
  if totalPnl < 0 then -totalPnl else 0

/-- The risk-filter rejection reason for check 1. -/
def exposureLimitMsg : String := "Exposure limit"

/-- The risk-filter rejection reason for check 2. -/
def lowConfidenceMsg : String := "Low confidence"

/-- The risk-filter rejection reason for check 3. -/
def positionLimitMsg : String := "Position limit"

/-- The risk-filter rejection reason for check 4. -/
def dailyLossLimitMsg : String := "Daily loss limit"

/-- Check 3 of the risk filter: an open position already exists at the
signal's key and its count has reached `maxPositionPerMarket`. -/
def positionLimitHit (rp : RiskParams) (positions : List (String × Position))
    (sig : Signal) : Bool :=
  match List.lookup (posKey sig.ticker sig.side) positions with
  | some p => if rp.maxPositionPerMarket ≤ p.count then true else false
  | none => false

/-- One step of the `checkedSignals` map: the four risk checks in source
order, first failure wins; the `minConfidence` read by check 2 is the one
from `valueParams`, and check 2 is skipped in market-maker-only mode. -/
def checkSignal (mode : String) (vp : ValueParams) (rp : RiskParams)
    (positions : List (String × Position)) (dailyLoss : Int)
    (sig : Signal) : CheckedSignal :=
  let cost := sig.price * sig.count
  if rp.maxExposure < cost then
    { sig := sig, status := Status.REJECTED,
      rejectReason := some exposureLimitMsg }
  else if sig.confidence < vp.minConfidence ∧ ¬mode = strMm then
    { sig := sig, status := Status.REJECTED,
      rejectReason := some lowConfidenceMsg }
  else if positionLimitHit rp positions sig then
    { sig := sig, status := Status.REJECTED,
      rejectReason := some positionLimitMsg }
  else if rp.maxDailyLoss ≤ dailyLoss then
    { sig := sig, status := Status.REJECTED,
      rejectReason := some dailyLossLimitMsg }
  else
    { sig := sig, status := Status.APPROVED, rejectReason := none }

/-- `checkedSignals`: the whole signal list run through the risk checks
against the portfolio read at the start of the filter pass. -/
def checkSignals (mode : String) (vp : ValueParams) (rp : RiskParams)
    (pf : Portfolio) (sigs : List Signal) : List CheckedSignal :=
  sigs.map (checkSignal mode vp rp pf.positions (dailyLossOf pf.totalPnl))

/-- The APPROVED-only subset handed to the ledger. -/
def approvedOf (checked : List CheckedSignal) : List Signal :=
  (checked.filter (fun c => c.status = Status.APPROVED)).map (fun c => c.sig)

/-- JavaScript `list.slice(-n)`: the most recent `n` elements. -/
def sliceLast (n : Nat) (l : List α) : List α :=
  l.drop (l.length - n)

/-- `currentMarkets.find((m) => m.ticker === t)`. -/
def findMarket (ms : List Market) (t : String) : Option Market :=
  ms.find? (fun m => m.ticker = t)

/-- JavaScript `currentMarkets.find(...)?.mid || fallback`: the fallback is
used when the ticker is absent from the snapshot, and also when the found
`mid` is `0` (falsy). -/
def jsMidOr (ms : List Market) (t : String) (fallback : Int) : Int :=
  match findMarket ms t with
  | some m => if m.mid = 0 then fallback else m.mid
  | none => fallback

/-- The exit price used when closing a position:
`sig.side === "YES" ? find(...)?.mid || sig.price : 100 - (find(...)?.mid || sig.price)`. -/
def exitPriceOf (ms : List Market) (sig : Signal) : Int :=
  if sig.side = Side.YES then jsMidOr ms sig.ticker sig.price
  else 100 - jsMidOr ms sig.ticker sig.price

/-- Bit length of a natural number (number of binary digits), written with
explicit fuel so that it is structurally recursive and kernel-evaluable;
fuel 4096 covers every magnitude a finite binary64 computation can reach. -/
def bitLenAux : Nat → Nat → Nat
  | 0, _ => 0
  | fuel + 1, n => if n = 0 then 0 else bitLenAux fuel (n / 2) + 1

/-- Bit length of a natural number: `bitLen 0 = 0`, `bitLen 1 = 1`,
`bitLen 255 = 8`. -/
def bitLen (n : Nat) : Nat := bitLenAux 4096 n

/-- A finite IEEE-754 binary64 value (a JavaScript number), represented by
its exact value `m * 2^e`.  Overflow to infinity and subnormal underflow are
not modeled; the fee computation stays far inside the normal range. -/
structure F64 where
  m : Int
  e : Int
deriving DecidableEq

/-- Round `n / 2^s` to the nearest integer, ties to even. -/
def rneShift (n : Nat) (s : Nat) : Nat :=
  let q := n / 2 ^ s
  let r := n % 2 ^ s
  let half := 2 ^ (s - 1)
  if r < half then q
  else if half < r then q + 1
  else if q % 2 = 0 then q else q + 1

/-- Round the positive rational `num / den` to the nearest integer, ties to
even. -/
def rneRat (num den : Nat) : Nat :=
  let q := num / den
  let r := num % den
  if 2 * r < den then q
  else if den < 2 * r then q + 1
  else if q % 2 = 0 then q else q + 1

/-- Round the positive dyadic `n * 2^e` to 53 significant bits
(round-to-nearest, ties-to-even), as binary64 arithmetic does. -/
def round53pos (n : Nat) (e : Int) : F64 :=
  let b := bitLen n
  if b ≤ 53 then { m := (n : Int), e := e }
  else
    let s := b - 53
    let n1 := rneShift n s
    if bitLen n1 = 54 then { m := ((n1 / 2 : Nat) : Int), e := e + s + 1 }
    else { m := (n1 : Int), e := e + s }

/-- Round the dyadic `m * 2^e` to binary64 precision. -/
def round53 (m : Int) (e : Int) : F64 :=
  if m < 0 then
    let r := round53pos (-m).toNat e
    { m := -r.m, e := r.e }
  else if m = 0 then { m := 0, e := 0 }
  else round53pos m.toNat e

/-- Round the positive rational `(n1 / n2) * 2^e` to binary64 precision:
pick the exponent `t` with `n1 / n2 / 2^t` in `[2^52, 2^53)` and round the
resulting 53-bit mantissa to nearest, ties to even. -/
def roundRatPos (n1 n2 : Nat) (e : Int) : F64 :=
  let d : Int := (bitLen n1 : Int) - (bitLen n2 : Int)
  let t : Int :=
    if n2 * 2 ^ d.toNat ≤ n1 * 2 ^ (-d).toNat then d - 52 else d - 53
  let num := n1 * 2 ^ (-t).toNat
  let den := n2 * 2 ^ t.toNat
  let m0 := rneRat num den
  if bitLen m0 = 54 then { m := ((m0 / 2 : Nat) : Int), e := e + t + 1 }
  else { m := (m0 : Int), e := e + t }

/-- Binary64 multiplication: the exact product, rounded. -/
def f64Mul (a b : F64) : F64 := round53 (a.m * b.m) (a.e + b.e)

/-- Binary64 subtraction: the exact dyadic difference, rounded. -/
def f64Sub (a b : F64) : F64 :=
  let e := min a.e b.e
  round53 (a.m * 2 ^ (a.e - e).toNat - b.m * 2 ^ (b.e - e).toNat) e

/-- Binary64 division: the correctly rounded exact quotient.  A zero divisor
(never reached by the fee computation, whose divisor is the literal 100)
is mapped to zero rather than to infinity. -/
def f64Div (a b : F64) : F64 :=
  if a.m = 0 ∨ b.m = 0 then { m := 0, e := 0 }
  else
    let r := roundRatPos a.m.natAbs b.m.natAbs (a.e - b.e)
    if (a.m < 0 ∧ b.m < 0) ∨ (0 ≤ a.m ∧ 0 ≤ b.m) then r
    else { m := -r.m, e := r.e }

/-- The binary64 value of an integer (exact below 2^53, rounded beyond). -/
def f64OfInt (n : Int) : F64 := round53 n 0

/-- `Math.ceil` of a binary64 value, as an integer (exact: the ceiling of a
double below 2^53 is itself representable). -/
def f64Ceil (a : F64) : Int :=
  if 0 ≤ a.e then a.m * 2 ^ a.e.toNat
  else -((-a.m).fdiv (2 ^ (-a.e).toNat))

/-- The binary64 value of the source literal `0.07`: the correctly rounded
quotient 7/100 (exactly 5044031582654956 * 2^(-56)). -/
def c007 : F64 := f64Div (f64OfInt 7) (f64OfInt 100)

/-- `fee = Math.ceil(0.07 * sig.count * (sig.price / 100) * (1 - sig.price / 100) * 100)`,
embedded with IEEE binary64 semantics exactly as JavaScript evaluates it:
the literal 0.07 is the double nearest 7/100 and each product, quotient and
difference is rounded to nearest (ties to even), left to right. -/
def fee (count price : Int) : Int :=
  let t1 := f64Mul c007 (f64OfInt count)
  let t2 := f64Div (f64OfInt price) (f64OfInt 100)
  let t3 := f64Mul t1 t2
  let t4 := f64Sub (f64OfInt 1) t2
  let t5 := f64Mul t3 t4
  f64Ceil (f64Mul t5 (f64OfInt 100))

/-- Modelled from the spec: the documented fee formula
`ceil(0.07 * count * (price/100) * (1 - price/100) * 100)` read as exact
rational arithmetic, stated for comparison with the program's
floating-point `fee`. -/
def feeSpec (count price : Int) : Int :=
  ⌈(7 / 100 : Rat) * (count : Rat) * ((price : Rat) / 100) *
    (1 - (price : Rat) / 100) * 100⌉

/-- JavaScript `delete positions[key]`. -/
def eraseKey (positions : List (String × Position)) (key : String) :
    List (String × Position) :=
  positions.filter (fun kv => ¬kv.1 = key)

/-- JavaScript `positions[key] = p` (the ledger only executes this when the
key is absent, but the overwrite semantics is kept). -/
def insertPos (positions : List (String × Position)) (key : String)
    (p : Position) : List (String × Position) :=
  eraseKey positions key ++ [(key, p)]

/-- One iteration of `approved.forEach((sig) => ...)` inside the
`setPortfolio` updater.  `prevTrades` is `prev.closedTrades`: the source
appends the new closed trade to the *pre-cycle* trade list, not to the one
accumulated so far in this cycle. -/
def applyApproved (ms : List Market) (prevTrades : List ClosedTrade)
    (pf : Portfolio) (sig : Signal) : Portfolio :=
  let f := fee sig.count sig.price
  let pf1 := { pf with totalFees := pf.totalFees + f, balance := pf.balance - f }
  let key := posKey sig.ticker sig.side
  match List.lookup key pf1.positions with
  | some existing =>
      let ex := exitPriceOf ms sig
      let pnl := (ex - existing.avgPrice) * existing.count
      { pf1 with
        totalPnl := pf1.totalPnl + pnl,
        balance := pf1.balance + pnl,
        closedTrades := sliceLast 50 prevTrades ++
          [{ ticker := sig.ticker, side := sig.side,
             entryPrice := existing.avgPrice, exitPrice := ex,
             count := existing.count, pnl := pnl }],
        positions := eraseKey pf1.positions key }
  | none =>
      { pf1 with
        balance := pf1.balance - sig.price * sig.count,
        positions := insertPos pf1.positions key
          { side := sig.side, count := sig.count, avgPrice := sig.price,
            ticker := sig.ticker } }

/-- The unrealized-P&L recomputation over still-open positions; positions
whose ticker is absent from the snapshot contribute nothing. -/
def unrealizedPnl (ms : List Market) (positions : List (String × Position)) :
    Int :=
  positions.foldl (fun acc kv =>
    match findMarket ms kv.2.ticker with
    | some mkt =>
        let cp := if kv.2.side = Side.YES then mkt.mid else 100 - mkt.mid
        acc + (cp - kv.2.avgPrice) * kv.2.count
    | none => acc) 0

/-- The whole `setPortfolio` updater of one cycle: fold the approved signals
through the ledger, then append the new equity sample to
`prev.equityCurve.slice(-100)`. -/
def runLedger (ms : List Market) (approved : List Signal) (prev : Portfolio) :
    Portfolio :=
  let next := List.foldl (applyApproved ms prev.closedTrades) prev approved
  let unrealized := unrealizedPnl ms next.positions
  { next with
    equityCurve := sliceLast 100 prev.equityCurve ++
      [next.totalPnl + unrealized] }

/-- One full cycle of the main loop restricted to the portfolio state:
generate → risk-filter → apply approved signals. -/
def runCycle (mode : String) (vp : ValueParams) (mm : MMParams)
    (rp : RiskParams) (fairOf : Market → Rat) (markets : List Market)
    (pf : Portfolio) : Portfolio :=
  runLedger markets
    (approvedOf (checkSignals mode vp rp pf
      (generateSignals mode markets vp mm fairOf))) pf

/-- The per-cycle external inputs: configuration (re-read each tick), the
market snapshot, and the stochastic fair-value draws. -/
structure CycleInput where
  mode : String
  markets : List Market
  vp : ValueParams
  mm : MMParams
  rp : RiskParams
  fairOf : Market → Rat

/-- Iterated cycles from a starting portfolio. -/
def runCycles (inputs : List CycleInput) (pf : Portfolio) : Portfolio :=
  inputs.foldl (fun p i => runCycle i.mode i.vp i.mm i.rp i.fairOf i.markets p) pf

/-! ### Supporting lemmas -/

theorem sliceLast_length_le {α : Type} (n : Nat) (l : List α) :
    (sliceLast n l).length ≤ n := by
  simp only [sliceLast, List.length_drop]
  omega

theorem lookup_eraseKey (ps : List (String × Position)) (k : String) :
    List.lookup k (eraseKey ps k) = none := by
  induction ps with
  | nil => rfl
  | cons kv rest ih =>
    by_cases h : kv.1 = k
    · simpa [eraseKey, h] using ih
    · have hne : (k == kv.1) = false := by simpa using Ne.symm h
      have hkeep : eraseKey (kv :: rest) k = kv :: eraseKey rest k := by
        simp [eraseKey, h]
      rw [hkeep]
      simpa [List.lookup, hne] using ih

theorem dailyLossOf_eq_max (x : Int) : dailyLossOf x = max 0 (-x) := by
  unfold dailyLossOf
  rcases lt_or_le x 0 with h | h
  · rw [if_pos h, max_eq_right (by omega)]
  · rw [if_neg (by omega), max_eq_left (by omega)]

theorem evaluateValueStrategy_minConfidence (m : Market) (vp : ValueParams)
    (fair : Rat) (sig : Signal) (h : sig ∈ evaluateValueStrategy m vp fair) :
    vp.minConfidence ≤ sig.confidence := by
  simp only [evaluateValueStrategy] at h
  rcases List.mem_append.mp h with h1 | h1 <;>
    split_ifs at h1 with hc1 hc2 <;>
      simp only [List.mem_singleton, List.not_mem_nil] at h1
  · subst h1; exact hc2
  · subst h1; exact hc2

theorem evaluateMMStrategy_confidence (m : Market) (mm : MMParams)
    (sig : Signal) (h : sig ∈ evaluateMMStrategy m mm) :
    sig.confidence = 1 / 2 := by
  simp only [evaluateMMStrategy, List.mem_cons, List.not_mem_nil, or_false] at h
  rcases h with h | h <;> (subst h; rfl)

theorem applyApproved_closedTrades_le (ms : List Market)
    (prevTrades : List ClosedTrade) (pf : Portfolio) (sig : Signal) :
    (applyApproved ms prevTrades pf sig).closedTrades.length ≤
      max pf.closedTrades.length 51 := by
  simp only [applyApproved]
  split
  · simp only [List.length_append, List.length_singleton]
    exact le_max_of_le_right
      (by have := sliceLast_length_le 50 prevTrades; omega)
  · exact le_max_left _ _

theorem foldl_applyApproved_closedTrades_le (ms : List Market)
    (prevTrades : List ClosedTrade) (sigs : List Signal) (pf : Portfolio) :
    (List.foldl (applyApproved ms prevTrades) pf sigs).closedTrades.length ≤
      max pf.closedTrades.length 51 := by
  induction sigs generalizing pf with
  | nil => exact le_max_left _ _
  | cons s rest ih =>
    refine le_trans (ih (applyApproved ms prevTrades pf s)) ?_
    have := applyApproved_closedTrades_le ms prevTrades pf s
    simp only [max_le_iff] at this ⊢
    omega

theorem runLedger_closedTrades_le (ms : List Market) (approved : List Signal)
    (prev : Portfolio) :
    (runLedger ms approved prev).closedTrades.length ≤
      max prev.closedTrades.length 51 := by
  unfold runLedger
  exact foldl_applyApproved_closedTrades_le ms prev.closedTrades approved prev

theorem runLedger_equityCurve_le (ms : List Market) (approved : List Signal)
    (prev : Portfolio) :
    (runLedger ms approved prev).equityCurve.length ≤ 101 := by
  unfold runLedger
  simp only [List.length_append, List.length_singleton]
  have := sliceLast_length_le 100 prev.equityCurve
  omega

theorem runCycles_bounds (inputs : List CycleInput) (pf : Portfolio)
    (he : pf.equityCurve.length ≤ 101) (hc : pf.closedTrades.length ≤ 51) :
    (runCycles inputs pf).equityCurve.length ≤ 101 ∧
      (runCycles inputs pf).closedTrades.length ≤ 51 := by
  induction inputs generalizing pf with
  | nil => exact ⟨he, hc⟩
  | cons i rest ih =>
    simp only [runCycles, List.foldl_cons]
    refine ih (runCycle i.mode i.vp i.mm i.rp i.fairOf i.markets pf) ?_ ?_
    · exact runLedger_equityCurve_le _ _ _
    · refine le_trans (runLedger_closedTrades_le _ _ _) ?_
      exact max_le hc (by omega)

/-! ### Claims -/

/-- C1 (counterexample): the claim says the portfolio balance starts at
1,000,000 cents; in the source the initial state is `balance: 10000`. -/
theorem claim1_counterexample : initialPortfolio.balance ≠ 1000000 := by
  decide

/-- C1 (amended): the Portfolio balance starts at 10,000 cents (= $100 as
displayed, since the dashboard renders `balance / 100`), and `resetStats`
reinitializes the Portfolio to this same starting state (balance 10,000,
totalPnl 0, no positions, no closed trades, equityCurve = [0], totalFees 0). -/
theorem claim1_theorem :
    resetPortfolio = initialPortfolio ∧
    initialPortfolio =
      { balance := 10000, totalPnl := 0, positions := [], closedTrades := [],
        equityCurve := [0], totalFees := 0 } :=
  ⟨rfl, rfl⟩

/-- Cycle input for the C2 counterexample: an empty market snapshot (the
engine still appends an equity sample every cycle) under the source's
default configuration values. -/
def c2input : CycleInput :=
  { mode := strValue, markets := [],
    vp := { threshold := 8, maxContracts := 5, minConfidence := 3 / 10 },
    mm := { spread := 6, size := 2 },
    rp := { maxPositionPerMarket := 10, maxExposure := 5000,
            maxDailyLoss := 1000 },
    fairOf := fun _ => 0 }

/-- C2 (counterexample): after 100 cycles from the initial state the equity
curve holds 101 samples, refuting the claimed bound of 100
(`[...prev.equityCurve.slice(-100), x]` keeps 100 old samples and appends
one more). -/
theorem claim2_counterexample :
    (runCycles (List.replicate 100 c2input) initialPortfolio).equityCurve.length
      = 101 := by
  set_option maxRecDepth 100000 in decide

/-- C2 (amended): for every reachable Portfolio state after any number of
cycles, the equityCurve list has length at most 101 and the closedTrades
list has length at most 51: each append first truncates to the most recent
100 (resp. 50) elements, oldest evicted first, then appends one more. -/
theorem claim2_theorem (inputs : List CycleInput) :
    (runCycles inputs initialPortfolio).equityCurve.length ≤ 101 ∧
      (runCycles inputs initialPortfolio).closedTrades.length ≤ 51 :=
  runCycles_bounds inputs initialPortfolio (by decide) (by decide)

/-- A NO-side signal on a ticker absent from the snapshot, for the C4
counterexample. -/
def c4sig : Signal :=
  { ticker := "T9", title := "", side := Side.NO, action := buyAction,
    price := 40, count := 1, reason := "", confidence := 1 / 2, edge := 0 }

/-- C4 (counterexample): closing a NO position whose ticker is absent from
the snapshot uses exit price `100 - sig.price` (here 60), not the signal's
own price 40 as claimed. -/
theorem claim4_counterexample :
    exitPriceOf [] c4sig = 100 - c4sig.price ∧
      exitPriceOf [] c4sig ≠ c4sig.price := by
  decide

/-- C4 (amended): when the ticker is absent from the snapshot, the fallback
substitutes the signal's own price for the missing mid, so a YES position
closes at `sig.price` and a NO position closes at `100 - sig.price`. -/
theorem claim4_theorem (ms : List Market) (sig : Signal)
    (h : findMarket ms sig.ticker = none) :
    exitPriceOf ms sig =
      if sig.side = Side.YES then sig.price else 100 - sig.price := by
  simp [exitPriceOf, jsMidOr, h]

/-- A YES-side signal on a ticker absent from the snapshot, used to witness
the amended C4. -/
def c4wsig : Signal :=
  { ticker := "T8", title := "", side := Side.YES, action := buyAction,
    price := 40, count := 1, reason := "", confidence := 1 / 2, edge := 0 }

/-- C4 (witness): the amended C4 instantiated at an empty snapshot. -/
theorem claim4_witness :
    findMarket [] c4wsig.ticker = none ∧
      exitPriceOf [] c4wsig =
        if c4wsig.side = Side.YES then c4wsig.price else 100 - c4wsig.price :=
  ⟨rfl, claim4_theorem [] c4wsig rfl⟩

/-- C5: exposure is checked before confidence, first failure wins: every
signal whose cost exceeds `maxExposure` and whose confidence is below
`minConfidence` is REJECTED with reason "Exposure limit", never
"Low confidence". -/
theorem claim5_theorem (mode : String) (vp : ValueParams) (rp : RiskParams)
    (positions : List (String × Position)) (dailyLoss : Int) (sig : Signal)
    (hexp : rp.maxExposure < sig.price * sig.count)
    (hconf : sig.confidence < vp.minConfidence) :
    checkSignal mode vp rp positions dailyLoss sig =
      { sig := sig, status := Status.REJECTED,
        rejectReason := some exposureLimitMsg } := by
  simp only [checkSignal]
  rw [if_pos hexp]

/-- Signal for the C5 witness: cost 6000 over the 5000 exposure limit, with
confidence 0.1 below the 0.3 minimum. -/
def c5sig : Signal :=
  { ticker := "T1", title := "", side := Side.YES, action := buyAction,
    price := 60, count := 100, reason := "", confidence := 1 / 10, edge := 0 }

/-- Value params for the C5 witness. -/
def c5vp : ValueParams :=
  { threshold := 8, maxContracts := 5, minConfidence := 3 / 10 }

/-- Risk params for the C5 witness. -/
def c5rp : RiskParams :=
  { maxPositionPerMarket := 10, maxExposure := 5000, maxDailyLoss := 1000 }

/-- C5 (witness): a concrete signal violating both the exposure and the
confidence limits is rejected with "Exposure limit". -/
theorem claim5_witness :
    c5rp.maxExposure < c5sig.price * c5sig.count ∧
    c5sig.confidence < c5vp.minConfidence ∧
    checkSignal strBoth c5vp c5rp [] 0 c5sig =
      { sig := c5sig, status := Status.REJECTED,
        rejectReason := some exposureLimitMsg } :=
  ⟨by norm_num [c5rp, c5sig], by norm_num [c5sig, c5vp],
    claim5_theorem strBoth c5vp c5rp [] 0 c5sig
      (by norm_num [c5rp, c5sig]) (by norm_num [c5sig, c5vp])⟩

/-- The market of the C6 scenario. -/
def c6market : Market :=
  { ticker := "T1", title := "", yesBid := 40, yesAsk := 50, mid := 45 }

/-- The value params of the C6 scenario. -/
def c6vp : ValueParams :=
  { threshold := 8, maxContracts := 5, minConfidence := 3 / 10 }

/-- C6 (counterexample): with fair = 60 the value strategy generates NO
signal at all for this market — the claim says a YES signal is generated and
then rejected by the risk filter. -/
theorem claim6_counterexample :
    evaluateValueStrategy c6market c6vp 60 = [] := by
  norm_num [evaluateValueStrategy, c6market, c6vp, min_def]

/-- Risk params for the amended C6 (the source defaults). -/
def c6rp : RiskParams :=
  { maxPositionPerMarket := 10, maxExposure := 5000, maxDailyLoss := 1000 }

/-- C6 (amended): for the scenario market with a fair-value draw of 60 the
YES edge is 10 ≥ threshold 8, but the strategy-internal confidence
0.10 < minConfidence 0.3 suppresses emission inside the evaluator itself: no
signal is generated, so the Risk Filter never sees one and no
"Low confidence" rejection occurs. -/
theorem claim6_theorem :
    (60 : Rat) - (c6market.yesAsk : Rat) = 10 ∧
    c6vp.threshold ≤ 10 ∧
    min (((60 : Rat) - (c6market.yesAsk : Rat)) / 100) 1 = 1 / 10 ∧
    (1 / 10 : Rat) < c6vp.minConfidence ∧
    evaluateValueStrategy c6market c6vp 60 = [] ∧
    checkSignals strBoth c6vp c6rp initialPortfolio
      (evaluateValueStrategy c6market c6vp 60) = [] := by
  refine ⟨by norm_num [c6market], by norm_num [c6vp], by norm_num [c6market],
    by norm_num [c6vp], ?_, ?_⟩ <;>
    norm_num [checkSignals, evaluateValueStrategy, c6market, c6vp, min_def]

/-- The market of the C7 scenario (mid 50). -/
def c7market : Market :=
  { ticker := "M1", title := "", yesBid := 47, yesAsk := 53, mid := 50 }

/-- The market-maker params of the C7 scenario. -/
def c7mm : MMParams := { spread := 6, size := 2 }

/-- C7: for every market and market-maker params the strategy
unconditionally emits exactly two signals — a YES BUY at
`max(1, mid - ⌊spread/2⌋)` and a NO BUY at `max(1, 100 - mid - ⌊spread/2⌋)`,
each with count = size, confidence = 0.5 and edge = ⌊spread/2⌋; with
spread 6, size 2, mid 50, both bids are at 47 with edge 3. -/
theorem claim7_theorem :
    (∀ (m : Market) (p : MMParams),
      evaluateMMStrategy m p =
        [{ ticker := m.ticker, title := m.title, side := Side.YES,
           action := buyAction, price := max 1 (m.mid - Int.fdiv p.spread 2),
           count := p.size, reason := mmYesBidMsg, confidence := 1 / 2,
           edge := (Int.fdiv p.spread 2 : Rat) },
         { ticker := m.ticker, title := m.title, side := Side.NO,
           action := buyAction,
           price := max 1 (100 - m.mid - Int.fdiv p.spread 2),
           count := p.size, reason := mmNoBidMsg, confidence := 1 / 2,
           edge := (Int.fdiv p.spread 2 : Rat) }]) ∧
    evaluateMMStrategy c7market c7mm =
      [{ ticker := c7market.ticker, title := c7market.title, side := Side.YES,
         action := buyAction, price := 47, count := 2, reason := mmYesBidMsg,
         confidence := 1 / 2, edge := 3 },
       { ticker := c7market.ticker, title := c7market.title, side := Side.NO,
         action := buyAction, price := 47, count := 2, reason := mmNoBidMsg,
         confidence := 1 / 2, edge := 3 }] := by
  refine ⟨fun m p => rfl, ?_⟩
  norm_num [evaluateMMStrategy, c7market, c7mm, Int.fdiv]

/-- C3: an approved signal whose (ticker, side) key matches an open position
fully liquidates it: the entire existing count is closed at the exit price
(market mid for YES, 100 - mid for NO, when the ticker is quoted), realized
pnl = (exitPrice - avgPrice) * existing.count is added to totalPnl and
credited to balance, a ClosedTrade is appended, the position is deleted, and
the new signal's own count and price are discarded — no new position is
opened in that step. -/
theorem claim3_theorem (ms : List Market) (prevTrades : List ClosedTrade)
    (pf : Portfolio) (sig : Signal) (existing : Position)
    (hpos : List.lookup (posKey sig.ticker sig.side) pf.positions
      = some existing) :
    (applyApproved ms prevTrades pf sig).totalPnl =
      pf.totalPnl + (exitPriceOf ms sig - existing.avgPrice) * existing.count ∧
    (applyApproved ms prevTrades pf sig).balance =
      pf.balance - fee sig.count sig.price +
        (exitPriceOf ms sig - existing.avgPrice) * existing.count ∧
    (applyApproved ms prevTrades pf sig).closedTrades =
      sliceLast 50 prevTrades ++
        [{ ticker := sig.ticker, side := sig.side,
           entryPrice := existing.avgPrice, exitPrice := exitPriceOf ms sig,
           count := existing.count,
           pnl := (exitPriceOf ms sig - existing.avgPrice) * existing.count }] ∧
    (applyApproved ms prevTrades pf sig).positions =
      eraseKey pf.positions (posKey sig.ticker sig.side) ∧
    List.lookup (posKey sig.ticker sig.side)
      (applyApproved ms prevTrades pf sig).positions = none ∧
    (∀ mkt, findMarket ms sig.ticker = some mkt → ¬mkt.mid = 0 →
      exitPriceOf ms sig =
        if sig.side = Side.YES then mkt.mid else 100 - mkt.mid) := by
  refine ⟨?_, ?_, ?_, ?_, ?_, ?_⟩
  · simp [applyApproved, hpos]
  · simp [applyApproved, hpos]
  · simp [applyApproved, hpos]
  · simp [applyApproved, hpos]
  · simp only [applyApproved]
    rw [show ({ pf with
        totalFees := pf.totalFees + fee sig.count sig.price,
        balance := pf.balance - fee sig.count sig.price } : Portfolio).positions
      = pf.positions from rfl, hpos]
    exact lookup_eraseKey _ _
  · intro mkt hm hmid
    simp [exitPriceOf, jsMidOr, hm, hmid]

/-- The snapshot used by the C3 witness: the position's market, with the mid
moved to 55. -/
def c3ms : List Market :=
  [{ ticker := "T1", title := "", yesBid := 53, yesAsk := 57, mid := 55 }]

/-- The portfolio of the C3 witness: an open YES position of count 3 at
40 cents on ticker T1. -/
def c3pf : Portfolio :=
  { balance := 10000, totalPnl := 0,
    positions := [("T1-YES",
      { side := Side.YES, count := 3, avgPrice := 40, ticker := "T1" })],
    closedTrades := [], equityCurve := [0], totalFees := 0 }

/-- The second approved YES signal of the C3 witness, with its own count 1
and price 57 (both discarded by the full liquidation). -/
def c3sig : Signal :=
  { ticker := "T1", title := "", side := Side.YES, action := buyAction,
    price := 57, count := 1, reason := "", confidence := 1 / 2, edge := 0 }

/-- C3 (witness): the scenario of the spec — YES count 3 at 40, second
approved YES signal with the market at mid 55 closes the whole position at
55 for pnl (55 - 40) * 3 = 45, and the key is gone afterwards. -/
theorem claim3_witness :
    (applyApproved c3ms [] c3pf c3sig).totalPnl = c3pf.totalPnl + (55 - 40) * 3 ∧
    List.lookup (posKey c3sig.ticker c3sig.side)
      (applyApproved c3ms [] c3pf c3sig).positions = none := by
  have h := claim3_theorem c3ms [] c3pf c3sig
    { side := Side.YES, count := 3, avgPrice := 40, ticker := "T1" }
    (by decide)
  refine ⟨?_, h.2.2.2.2.1⟩
  have hx : exitPriceOf c3ms c3sig = 55 := by decide
  have := h.1
  rw [hx] at this
  simpa using this

/-- The approved signal of the C8 counterexample: a new position of count 4
at price 50, the fee sweet spot where float noise changes the ceiling. -/
def c8sig : Signal :=
  { ticker := "T1", title := "", side := Side.YES, action := buyAction,
    price := 50, count := 4, reason := "", confidence := 1 / 2, edge := 0 }

/-- C8 (counterexample): at count 4, price 50 the program's IEEE-double
evaluation gives `Math.ceil(7.000000000000001) = 8`, while the documented
formula gives `ceil(7) = 7`; opening that position from the initial state
leaves balance 10000 - 8 - 200 = 9792, one cent less than the
10000 - 7 - 200 = 9793 the documented formula prescribes — so the balance
update does not match the documented formulas exactly. -/
theorem claim8_counterexample :
    fee 4 50 = 8 ∧ feeSpec 4 50 = 7 ∧ fee 4 50 ≠ feeSpec 4 50 ∧
    (applyApproved [] [] initialPortfolio c8sig).balance = 9792 ∧
    initialPortfolio.balance - feeSpec c8sig.count c8sig.price -
      c8sig.price * c8sig.count = 9793 := by
  have hs : feeSpec 4 50 = 7 := by
    unfold feeSpec
    rw [Int.ceil_eq_iff] <;> norm_num
  refine ⟨?_, hs, ?_, ?_, ?_⟩
  · set_option maxRecDepth 100000 in decide
  · rw [hs]
    set_option maxRecDepth 100000 in decide
  · set_option maxRecDepth 100000 in decide
  · show initialPortfolio.balance - feeSpec 4 50 - 50 * 4 = 9793
    rw [hs]
    decide

/-- C8 (amended): for every approved signal the ledger first debits the fee
the program computes — the IEEE binary64 evaluation of
`ceil(0.07 * count * (price/100) * (1 - price/100) * 100)`, which can exceed
the exact value of that formula by one cent where the double product rounds
just above an integer (8 instead of 7 at count 4, price 50) — and
accumulates it into totalFees; then debits cost = price * count when a new
position is opened, or credits the realized pnl when an existing position is
closed. -/
theorem claim8_theorem (ms : List Market) (prevTrades : List ClosedTrade)
    (pf : Portfolio) (sig : Signal) :
    (applyApproved ms prevTrades pf sig).totalFees =
      pf.totalFees + fee sig.count sig.price ∧
    (applyApproved ms prevTrades pf sig).balance =
      pf.balance - fee sig.count sig.price +
        (match List.lookup (posKey sig.ticker sig.side) pf.positions with
         | none => -(sig.price * sig.count)
         | some existing =>
             (exitPriceOf ms sig - existing.avgPrice) * existing.count) := by
  refine ⟨?_, ?_⟩ <;>
    rcases h : List.lookup (posKey sig.ticker sig.side) pf.positions with
      _ | existing <;>
      simp [applyApproved, h, sub_eq_add_neg]

/-- Value params for the C9 counterexample (source defaults). -/
def c9vp : ValueParams :=
  { threshold := 8, maxContracts := 5, minConfidence := 3 / 10 }

/-- Risk params for the C9 counterexample: maxDailyLoss 1000. -/
def c9rp : RiskParams :=
  { maxPositionPerMarket := 10, maxExposure := 5000, maxDailyLoss := 1000 }

/-- The portfolio of the C9 counterexample: totalPnl = -1000. -/
def c9pf : Portfolio :=
  { balance := 10000, totalPnl := -1000, positions := [], closedTrades := [],
    equityCurve := [0], totalFees := 0 }

/-- A signal whose cost 6000 exceeds the exposure limit, arriving while the
daily-loss condition also holds. -/
def c9sig : Signal :=
  { ticker := "T1", title := "", side := Side.YES, action := buyAction,
    price := 60, count := 100, reason := "", confidence := 1 / 2, edge := 0 }

/-- C9 (counterexample): in the state totalPnl = -1000 with
maxDailyLoss = 1000 the daily-loss condition holds, yet a signal that also
violates the exposure limit is rejected with "Exposure limit", refuting
"every subsequent signal is rejected with Daily loss limit". -/
theorem claim9_counterexample :
    c9rp.maxDailyLoss ≤ dailyLossOf c9pf.totalPnl ∧
    (checkSignal strBoth c9vp c9rp c9pf.positions (dailyLossOf c9pf.totalPnl)
        c9sig).rejectReason = some exposureLimitMsg ∧
    (checkSignal strBoth c9vp c9rp c9pf.positions (dailyLossOf c9pf.totalPnl)
        c9sig).rejectReason ≠ some dailyLossLimitMsg := by
  refine ⟨by decide, ?_, ?_⟩ <;>
    norm_num [checkSignal, c9vp, c9rp, c9pf, c9sig, dailyLossOf,
      exposureLimitMsg, dailyLossLimitMsg] <;>
    decide

/-- C9 (amended): the daily-loss check fires exactly when the signal passes
the exposure, confidence and position-limit checks and
max(0, -totalPnl) ≥ maxDailyLoss (session-cumulative realized loss, read
from the Portfolio at the start of the filter pass); in the state
totalPnl = -1000 with maxDailyLoss = 1000, every signal reaching the check
is rejected with "Daily loss limit" until totalPnl improves. -/
theorem claim9_theorem (mode : String) (vp : ValueParams) (rp : RiskParams)
    (positions : List (String × Position)) (pf : Portfolio) (sig : Signal)
    (h1 : ¬rp.maxExposure < sig.price * sig.count)
    (h2 : ¬(sig.confidence < vp.minConfidence ∧ ¬mode = strMm))
    (h3 : positionLimitHit rp positions sig = false) :
    (checkSignal mode vp rp positions (dailyLossOf pf.totalPnl) sig).rejectReason
        = some dailyLossLimitMsg ↔ rp.maxDailyLoss ≤ max 0 (-pf.totalPnl) := by
  rw [← dailyLossOf_eq_max]
  simp only [checkSignal]
  rw [if_neg h1, if_neg h2]
  by_cases hd : rp.maxDailyLoss ≤ dailyLossOf pf.totalPnl
  · simp [h3, hd]
  · simp [h3, hd]

/-- The signal of the C9 witness: small cost, high confidence, no open
position — it reaches the daily-loss check. -/
def c9wsig : Signal :=
  { ticker := "T2", title := "", side := Side.YES, action := buyAction,
    price := 40, count := 2, reason := "", confidence := 1 / 2, edge := 0 }

/-- C9 (witness): with totalPnl = -1000 and maxDailyLoss = 1000, a signal
passing the first three checks is rejected with "Daily loss limit". -/
theorem claim9_witness :
    (checkSignal strBoth c9vp c9rp c9pf.positions (dailyLossOf c9pf.totalPnl)
        c9wsig).rejectReason = some dailyLossLimitMsg :=
  (claim9_theorem strBoth c9vp c9rp c9pf.positions c9pf c9wsig
      (by norm_num [c9rp, c9wsig])
      (by norm_num [c9vp, c9wsig, strBoth, strMm])
      (by decide)).mpr
    (by norm_num [c9rp, c9pf])

/-- The market of the C10 witness. -/
def c10market : Market :=
  { ticker := "M1", title := "", yesBid := 47, yesAsk := 53, mid := 50 }

/-- Value params of the C10 witness, with minConfidence 0.6 above the fixed
market-maker confidence 0.5. -/
def c10vp : ValueParams :=
  { threshold := 8, maxContracts := 5, minConfidence := 3 / 5 }

/-- Market-maker params of the C10 witness. -/
def c10mm : MMParams := { spread := 6, size := 2 }

/-- Risk params of the C10 witness. -/
def c10rp : RiskParams :=
  { maxPositionPerMarket := 10, maxExposure := 5000, maxDailyLoss := 1000 }

/-- The market-maker YES signal emitted by the C10 witness market. -/
def c10sig : Signal :=
  { ticker := "M1", title := "", side := Side.YES, action := buyAction,
    price := 47, count := 2, reason := mmYesBidMsg, confidence := 1 / 2,
    edge := 3 }

/-- C10: every value-strategy signal already satisfies
confidence ≥ minConfidence (the evaluator filters with the same
`valueParams.minConfidence` the risk filter reads), so a "Low confidence"
rejection of a generated signal can only happen to a market-maker signal
(fixed confidence 0.5), only in strategy mode "both", and only when
minConfidence > 0.5. -/
theorem claim10_theorem (mode : String) (markets : List Market)
    (vp : ValueParams) (mm : MMParams) (fairOf : Market → Rat)
    (rp : RiskParams) (pf : Portfolio) (sig : Signal)
    (hmem : sig ∈ generateSignals mode markets vp mm fairOf)
    (hrej : (checkSignal mode vp rp pf.positions (dailyLossOf pf.totalPnl)
        sig).rejectReason = some lowConfidenceMsg) :
    mode = strBoth ∧ sig.confidence = 1 / 2 ∧
      (1 / 2 : Rat) < vp.minConfidence ∧
      ∃ m, m ∈ markets ∧ sig ∈ evaluateMMStrategy m mm := by
  simp only [checkSignal] at hrej
  split_ifs at hrej with hc1 hc2 hc3 hc4 <;>
    simp only [Option.some.injEq] at hrej
  case pos =>
    exact absurd hrej (by decide)
  case pos =>
    obtain ⟨hconf, hmm⟩ := hc2
    obtain ⟨m, hm, hsf⟩ := List.mem_flatMap.mp hmem
    rcases List.mem_append.mp hsf with hval | hmmpart
    · split_ifs at hval with hmode
      · exact absurd hconf
          (not_lt.mpr (evaluateValueStrategy_minConfidence m vp (fairOf m) sig hval))
      · exact absurd hval (List.not_mem_nil sig)
    · split_ifs at hmmpart with hmode
      · rcases hmode with hmode | hmode
        · exact absurd hmode hmm
        · have hhalf := evaluateMMStrategy_confidence m mm sig hmmpart
          exact ⟨hmode, hhalf, by rwa [hhalf] at hconf, m, hm, hmmpart⟩
      · exact absurd hmmpart (List.not_mem_nil sig)
  case pos =>
    exact absurd hrej (by decide)
  case pos =>
    exact absurd hrej (by decide)

/-- C10 (witness): in mode "both" with minConfidence 0.6, the market-maker
YES signal at mid 50 is generated, rejected with "Low confidence", and the
theorem attributes it to the market maker. -/
theorem claim10_witness :
    strBoth = strBoth ∧ c10sig.confidence = 1 / 2 ∧
      (1 / 2 : Rat) < c10vp.minConfidence ∧
      ∃ m, m ∈ [c10market] ∧ c10sig ∈ evaluateMMStrategy m c10mm :=
  claim10_theorem strBoth [c10market] c10vp c10mm (fun _ => 50) c10rp
    initialPortfolio c10sig
    (by norm_num [generateSignals, strategySignalsFor, evaluateValueStrategy,
      evaluateMMStrategy, c10market, c10vp, c10mm, c10sig, strBoth, strValue,
      strMm, min_def, Int.fdiv])
    (by norm_num [checkSignal, c10vp, c10rp, c10sig, strBoth, strMm,
        positionLimitHit, initialPortfolio, dailyLossOf]
        <;> decide)

end KalshiDashboard
